/-
Verification of the template-driven content-generation engine in
`content_generator.py` (repository perlinson/ai-content-generator).

The engine is embedded shallowly: Python strings are Lean `String`s
(sequences of Unicode code points, matching CPython `str` semantics for
`len`, slicing and membership), Python `float` scores are modelled as
exact rationals `ℚ` (the scorer only adds decimal constants), the
process clock and the MD5 content id are modelled as explicit input
parameters, and the global `random.choice` used for title selection is
modelled as an injected index into the candidate list.  Fallible
operations return `Except String`; the mutable engine state
(`generation_history`, `quality_scores`) is passed explicitly.
-/
import Mathlib

namespace ContentGen

/-! ## Python string primitives

Helpers mirroring the CPython `str` operations the engine uses:
`len`, slicing `s[:n]`, substring membership `sub in s`, and
`s.replace(old, new)` (replace all occurrences). -/

/-- Python `len(s)`: number of Unicode code points. -/
def pyLen (s : String) : Nat := s.data.length

/-- Python `s[:n]`: the first `n` code points of `s`. -/
def pyTake (s : String) (n : Nat) : String := ⟨s.data.take n⟩

/-- Python `sub in s`: substring membership test. -/
def pyIn (sub s : String) : Bool :=
  s.data.tails.any (fun t => sub.data.isPrefixOf t)

/-- Replace every occurrence of `pat` in the list by `rep`
(non-overlapping, left to right), as CPython `str.replace` does for a
non-empty pattern. -/
def replaceList (pat rep : List Char) : List Char → List Char
  | [] => []
  | c :: rest =>
    if pat.isPrefixOf (c :: rest) ∧ pat ≠ [] then
      rep ++ replaceList pat rep ((c :: rest).drop pat.length)
    else
      c :: replaceList pat rep rest
termination_by s => s.length
decreasing_by
  · simp only [List.length_drop, List.length_cons]
    rename_i h
    have hp : 1 ≤ pat.length := by
      cases pat with
      | nil => exact absurd rfl h.2
      | cons a l => simp
    omega
  · simp

/-- Python `s.replace(old, new)` (for the non-empty patterns the engine
uses; the empty-pattern case never occurs). -/
def pyReplace (s old new : String) : String :=
  ⟨replaceList old.data new.data s.data⟩

/-- Python two-argument `min(a, b)`: `a` when `a ≤ b`, else `b`. -/
def pyMin (a b : ℚ) : ℚ := if a ≤ b then a else b

/-! ## Data model (`Platform`, `ContentType`, `ContentTemplate`,
`GeneratedContent`) -/

/-- `class Platform(Enum)`. -/
inductive Platform where
  | blog | twitter | instagram | linkedin | weibo | zhihu | medium
deriving DecidableEq, Repr

/-- `Platform.value`. -/
def Platform.value : Platform → String
  | .blog => "blog"
  | .twitter => "twitter"
  | .instagram => "instagram"
  | .linkedin => "linkedin"
  | .weibo => "weibo"
  | .zhihu => "zhihu"
  | .medium => "medium"

/-- `class ContentType(Enum)`. -/
inductive ContentType where
  | article | post | caption | ad_copy | product_description
  | headline | summary
deriving DecidableEq, Repr

/-- `ContentType.value`. -/
def ContentType.value : ContentType → String
  | .article => "article"
  | .post => "post"
  | .caption => "caption"
  | .ad_copy => "ad_copy"
  | .product_description => "product_description"
  | .headline => "headline"
  | .summary => "summary"

/-- `@dataclass ContentTemplate`. -/
structure ContentTemplate where
  name : String
  platform : String
  content_type : String
  prompt : String
  «variables» : List String
  min_length : Nat
  max_length : Nat
  tone : String
  examples : List String
deriving DecidableEq, Repr

/-- `@dataclass GeneratedContent`.  `quality_score` is an exact
rational standing for the Python float (the scorer only manipulates
decimal constants). -/
structure GeneratedContent where
  id : String
  platform : String
  content_type : String
  title : String
  body : String
  tags : List String
  hashtags : List String
  created_at : String
  quality_score : ℚ
  variants : List String
deriving Repr

/-! ## Template registry (`ContentTemplates.TEMPLATES`)

The static two-level dict `platform.value → content_type.value →
ContentTemplate`, embedded as a total function into `Option`.  Each
Python prompt is a `""""…"""` literal, so the prompt text begins with a
literal double quote. -/

/-- `TEMPLATES[blog][article]`. -/
def blogArticleTemplate : ContentTemplate where
  name := "技术博客文章"
  platform := Platform.blog.value
  content_type := ContentType.article.value
  prompt := "\"/role: 资深技术博主\n/tone: 专业但易懂\n/length: 1500-3000字\n/format: \n- 引人入胜的开头\n- 清晰的结构\n- 代码示例\n- 实践建议\n- 总结展望\n\n请撰写一篇关于{topic}的技术文章。"
  «variables» := ["topic"]
  min_length := 1500
  max_length := 3000
  tone := "professional"
  examples := ["Python异步编程完全指南", "微服务架构实战心得"]

/-- `TEMPLATES[twitter][post]`. -/
def twitterPostTemplate : ContentTemplate where
  name := "技术分享推文"
  platform := Platform.twitter.value
  content_type := ContentType.post.value
  prompt := "\"/role: 技术专家\n/tone: 简洁有力\n/length: 200-280字符\n/format:\n- 核心观点\n- 简要解释\n- 1-2个代码片段或数据\n- CTA互动\n\n分享关于{topic}的见解："
  «variables» := ["topic"]
  min_length := 100
  max_length := 280
  tone := "engaging"
  examples := ["🧵 Python 技巧 #1:", "刚学到的..."]

/-- `TEMPLATES[twitter][headline]`. -/
def twitterHeadlineTemplate : ContentTemplate where
  name := "病毒式标题"
  platform := Platform.twitter.value
  content_type := ContentType.headline.value
  prompt := "\"/role: 标题党大师\n/tone: 吸引眼球\n/length: 80-100字符\n/techniques:\n- 数字具体化\n- 痛点解决\n- 反常识\n- 紧迫感\n\n为\"{topic}\"创作5个爆款标题："
  «variables» := ["topic"]
  min_length := 50
  max_length := 100
  tone := "clickbait"
  examples := ["7个让你效率翻倍的Python技巧", "这个误区让90%的程序员中招"]

/-- `TEMPLATES[weibo][post]`. -/
def weiboPostTemplate : ContentTemplate where
  name := "微博推广文案"
  platform := Platform.weibo.value
  content_type := ContentType.post.value
  prompt := "\"/role: 生活方式博主\n/tone: 亲切有趣\n/length: 100-200字\n/elements:\n- 热点结合\n- 个人故事\n- 轻松幽默\n- 话题标签\n\n分享关于{topic}的感受："
  «variables» := ["topic"]
  min_length := 50
  max_length := 200
  tone := "casual"
  examples := ["救命！这个真的绝了！", "姐妹们快看过来！！"]

/-- `TEMPLATES[linkedin][post]`. -/
def linkedinPostTemplate : ContentTemplate where
  name := "职场洞察"
  platform := Platform.linkedin.value
  content_type := ContentType.post.value
  prompt := "\"/role: 职场导师\n/tone: 专业真诚\n/length: 800-1500字符\n/structure:\n- 问题引入\n- 亲身经历\n- 方法论\n- 行动建议\n\n分享关于{topic}的职场心得："
  «variables» := ["topic"]
  min_length := 500
  max_length := 1500
  tone := "professional"
  examples := ["5年职场教会我的", "关于晋升那些事"]

/-- `TEMPLATES[zhihu][article]`. -/
def zhihuArticleTemplate : ContentTemplate where
  name := "知乎回答/文章"
  platform := Platform.zhihu.value
  content_type := ContentType.article.value
  prompt := "\"/role: 领域专家\n/tone: 理性分析\n/length: 1000-5000字\n/format:\n- 问题拆解\n- 原因分析\n- 解决方案\n- 案例支撑\n\n回答：{question}"
  «variables» := ["question"]
  min_length := 500
  max_length := 5000
  tone := "analytical"
  examples := ["为什么Python这么流行？", "如何入门机器学习？"]

/-- `ContentTemplates.TEMPLATES` followed by the two-level
`.get(platform.value, {}).get(content_type.value)` lookup performed by
`generate_content`: a miss at either level yields `none`. -/
def TEMPLATES : Platform → ContentType → Option ContentTemplate
  | .blog, .article => some blogArticleTemplate
  | .twitter, .post => some twitterPostTemplate
  | .twitter, .headline => some twitterHeadlineTemplate
  | .weibo, .post => some weiboPostTemplate
  | .linkedin, .post => some linkedinPostTemplate
  | .zhihu, .article => some zhihuArticleTemplate
  | _, _ => none

/-! ## Body synthesis (`AIContentGenerator._simulate_generation`)

Each branch body is split as `prefix ++ topic ++ tail topic`, following
the first interpolation point of the corresponding Python f-string; the
tail contains the remaining text verbatim. -/

/-- Tail of the tech-blog body after its leading `# {topic`
interpolation. -/
def blogArticleBodyTail (topic : String) : String :=
  "完全指南\n\n## 引言\n\n在当今快速发展的技术世界中，" ++ topic ++ "已经成为了一个不可忽视的重要话题。无论你是初学者还是资深开发者，掌握" ++ topic ++ "都将为你的职业生涯带来巨大的帮助。\n\n## 什么是" ++ topic ++ "？\n\n" ++ topic ++ "是[领域]中最具影响力的技术/概念之一。它主要解决以下问题：\n\n- 提高开发效率\n- 降低维护成本\n- 提升系统性能\n\n## 核心原理\n\n" ++ topic ++ "的核心思想可以概括为三个要点：\n\n### 1. 原理一\n\n详细的原理解释...\n\n### 2. 原理二\n\n详细的原理解释...\n\n### 3. 原理三\n\n详细的原理解释...\n\n## 实战示例\n\n```python\n# " ++ topic ++ "示例代码\ndef example_function():\n    # 代码示例\n    result = process_data()\n    return result\n```\n\n## 应用场景\n\n" ++ topic ++ "在实际工作中的应用场景非常广泛：\n\n1. **场景一** - 具体应用...\n2. **场景二** - 具体应用...\n3. **场景三** - 具体应用...\n\n## 最佳实践\n\n基于多年的经验总结，以下是" ++ topic ++ "的最佳实践：\n\n1. **实践一** - 具体建议\n2. **实践二** - 具体建议\n3. **实践三** - 具体建议\n\n## 常见问题\n\n### Q1: " ++ topic ++ "学习曲线陡峭吗？\n\nA: 入门其实很简单，深入需要时间...\n\n### Q2: 需要什么基础？\n\nA: 建议先掌握...\n\n## 总结\n\n" ++ topic ++ "是一个值得深入学习的技术/概念。希望本文能帮助你更好地理解和应用" ++ topic ++ "。\n\n---\n\n💬 你对" ++ topic ++ "有什么看法？欢迎在评论区交流！"

/-- Branch for template names containing 技术博客 or 技术文章. -/
def blogArticleBody (topic : String) : String :=
  "# " ++ topic ++ blogArticleBodyTail topic

/-- Tail of the tweet body after its leading interpolation. -/
def twitterPostBodyTail (topic : String) : String :=
  "，分享几个关键洞察：\n\n" ++ topic ++ "正在改变我们工作的方式。\n\n核心观点：\n→ 效率提升300%\n→ 成本降低50%\n→ 体验翻倍\n\n关键数据支持这一结论。\n\n你有什么经验？👇\n\n#Tech #" ++ pyReplace topic " " "" ++ " #AI"

/-- Branch for template names containing 推文 or Twitter. -/
def twitterPostBody (topic : String) : String :=
  "🧵 关于" ++ topic ++ twitterPostBodyTail topic

/-- Tail of the weibo body after its leading interpolation. -/
def weiboPostBodyTail (topic : String) : String :=
  "真的绝了！！！🙀\n\n最近在研究" ++ topic ++ "，没想到效果这么惊艳！\n\n✨ 具体感受：\n- 操作简单\n- 效果明显\n- 性价比高\n\n姐妹们一定要试试！冲冲冲！💪\n\n#" ++ topic ++ " #好物分享 #生活技巧"

/-- Branch for template names containing 微博. -/
def weiboPostBody (topic : String) : String :=
  "救命！姐妹们！" ++ topic ++ weiboPostBodyTail topic

/-- Tail of the linkedin body after its leading interpolation.  The
source line `📌 第一次实践尝试` carries two trailing spaces, kept
verbatim. -/
def linkedinPostBodyTail (topic : String) : String :=
  "，分享一段真实的职场经历。\n\n3年前，我对" ++ topic ++ "一无所知。\n2年前，我开始接触并学习。\n现在，" ++ topic ++ "已经成为我工作中最重要的技能之一。\n\n关键转变发生在：\n\n📌 第一次认知突破\n📌 第一次实践尝试  \n📌 第一次获得认可\n\n给职场新人的建议：\n\n1️⃣ 不要怕犯错\n2️⃣ 持续学习\n3️⃣ 建立个人品牌\n\n" ++ topic ++ "的时代已经到来，你准备好了吗？\n\n#职场成长 #技能提升 #" ++ topic

/-- Branch for template names containing 职场 or LinkedIn. -/
def linkedinPostBody (topic : String) : String :=
  "💼 关于" ++ topic ++ linkedinPostBodyTail topic

/-- Tail of the fallback analysis body after its leading interpolation.
Modelled from the spec: source line 479 reads `未来{topic将朝着…`, an
unclosed brace that makes the f-string (and hence the whole module) a
Python SyntaxError; the spec describes topic-interpolating synthesis,
so the evident intent `未来{topic}将朝着…` is embedded here. -/
def defaultBodyTail (topic : String) : String :=
  "的深度分析：\n\n" ++ topic ++ "是当前最受关注的话题之一。本文将从多个角度进行全面解读。\n\n## 为什么" ++ topic ++ "如此重要？\n\n- 技术创新驱动\n- 市场需求旺盛\n- 应用场景广泛\n\n## 核心观点\n\n" ++ topic ++ "的核心价值在于...\n\n## 发展趋势\n\n未来" ++ topic ++ "将朝着以下方向发展：\n\n→ 更加智能化\n→ 更加普及化\n→ 更加个性化\n\n## 结论\n\n" ++ topic ++ "值得每个人关注和学习。\n\n你对" ++ topic ++ "有什么看法？"

/-- Fallback (`else`) synthesis branch. -/
def defaultBody (topic : String) : String :=
  "关于" ++ topic ++ defaultBodyTail topic

/-- `AIContentGenerator._simulate_generation`: dispatch on substrings
of the template *name*;  the `prompt` argument is accepted and then
ignored, exactly as in the source. -/
def simulate_generation (_prompt : String) (template : ContentTemplate)
    (topic : String) : String :=
  if pyIn "技术博客" template.name || pyIn "技术文章" template.name then
    blogArticleBody topic
  else if pyIn "推文" template.name || pyIn "Twitter" template.name then
    twitterPostBody topic
  else if pyIn "微博" template.name then
    weiboPostBody topic
  else if pyIn "职场" template.name || pyIn "LinkedIn" template.name then
    linkedinPostBody topic
  else
    defaultBody topic

/-! ## Derived metadata (`_generate_title`, `_generate_tags`,
`_generate_hashtags`, `_generate_variants`, `_calculate_quality`) -/

/-- The `titles[ContentType.ARTICLE]` candidate list. -/
def articleTitles (topic : String) : List String :=
  ["关于" ++ topic ++ "，你需要知道的一切",
   topic ++ "完全指南：从入门到精通",
   "为什么" ++ topic ++ "如此重要？",
   topic ++ "的终极解答",
   "深入理解" ++ topic]

/-- `titles.get(content_type, titles[ContentType.ARTICLE])`: the
candidate-title list for a content type, falling back to the article
list for unmapped types. -/
def titleCandidates (topic : String) : ContentType → List String
  | .article => articleTitles topic
  | .post =>
      ["关于" ++ topic ++ "的思考",
       topic ++ "：我的几点看法",
       "聊聊" ++ topic,
       "关于" ++ topic ++ "，分享给需要的人"]
  | .ad_copy =>
      ["限时福利！" ++ topic ++ "免费领！",
       "发现了" ++ topic ++ "的神仙用法！",
       "后悔没早点知道的" ++ topic ++ "技巧！",
       topic ++ "，让生活更美好！"]
  | _ => articleTitles topic

/-- `AIContentGenerator._generate_title`.  `random.choice` draws from
the process-wide random generator; that draw is embedded as the
explicit index `r`, reduced modulo the list length. -/
def generate_title (topic : String) (content_type : ContentType)
    (r : Nat) : String :=
  (titleCandidates topic content_type).getD
    (r % (titleCandidates topic content_type).length) ""

/-- `AIContentGenerator._generate_tags`. -/
def generate_tags (topic : String) : Platform → List String
  | .twitter => ["Tech", "AI", pyReplace topic " " ""]
  | .weibo => ["#" ++ topic ++ "#", "#好物分享#", "#生活日记#"]
  | .zhihu => ["编程", "技术", pyReplace topic " " ""]
  | _ => [topic]

/-- `AIContentGenerator._generate_hashtags`. -/
def generate_hashtags (topic : String) (platform : Platform) :
    List String :=
  let tags := ["#" ++ pyReplace topic " " "" ++ "#"]
  let tags :=
    if platform = .twitter then tags ++ ["#Tech", "#Innovation", "#AI"]
    else if platform = .instagram then
      tags ++ ["#tech", "#innovation", "#coding"]
    else tags
  tags.take 5

/-- `AIContentGenerator._generate_variants`.  The `platform` argument
is accepted and ignored, as in the source. -/
def generate_variants (content : String) (_platform : Platform) :
    List String :=
  (if 500 < pyLen content then [pyTake content 300 ++ "..."] else [])
    ++ [content ++ "\n\n你对这个问题怎么看？",
        content ++ "\n\n觉得有用的话，记得点赞收藏！"]

/-- `AIContentGenerator._calculate_quality`, over exact rationals. -/
def calculate_quality (content : String)
    (template : ContentTemplate) : ℚ :=
  let score : ℚ := 0.5
  let length := pyLen content
  let score :=
    if template.min_length ≤ length ∧ length ≤ template.max_length then
      score + 0.2
    else score
  let score := if pyIn "\n" content then score + 0.1 else score
  let score :=
    if pyIn "#" content || pyIn "##" content then score + 0.1
    else score
  pyMin 1.0 score

/-! ## Engine state and `generate_content` -/

/-- The mutable fields set in `AIContentGenerator.__init__`. -/
structure EngineState where
  generation_history : List GeneratedContent
  quality_scores : List ℚ

/-- A freshly constructed `AIContentGenerator`. -/
def initState : EngineState := ⟨[], []⟩

/-- `AIContentGenerator.generate_content`.  The `ValueError` raised on
a registry miss becomes `Except.error` carrying the same message; the
MD5/time-derived id and the `datetime.now().isoformat()` stamp enter as
the parameters `idStr` and `createdAt`; the `random.choice` draw for
the title enters as the index `r`.  The updated engine state is
returned alongside the result (unchanged on error). -/
def generate_content (st : EngineState) (platform : Platform)
    (content_type : ContentType) (topic : String)
    (_tone : String) (language : String)
    (r : Nat) (idStr createdAt : String) :
    Except String GeneratedContent × EngineState :=
  match TEMPLATES platform content_type with
  | none =>
      (.error ("模板不存在: " ++ platform.value ++ "/"
                ++ content_type.value), st)
  | some template =>
      let prompt := pyReplace template.prompt
        ("\x7b" ++ (template.variables.headD "") ++ "\x7d") topic
      let prompt :=
        if language = "en" then "/language: English\n" ++ prompt
        else prompt
      let content := simulate_generation prompt template topic
      let tags := generate_tags topic platform
      let hashtags := generate_hashtags topic platform
      let quality_score := calculate_quality content template
      let generated : GeneratedContent :=
        { id := idStr
          platform := platform.value
          content_type := content_type.value
          title := generate_title topic content_type r
          body := content
          tags := tags
          hashtags := hashtags
          created_at := createdAt
          quality_score := quality_score
          variants := generate_variants content platform }
      (.ok generated,
       ⟨st.generation_history ++ [generated],
        st.quality_scores ++ [quality_score]⟩)

/-! ## Statistics (`get_statistics`) -/

/-- The record returned by `get_statistics`; the per-platform and
per-type dicts are insertion-ordered association lists. -/
structure Stats where
  total_generated : Nat
  avg_quality : ℚ
  by_platform : List (String × Nat)
  by_type : List (String × Nat)
deriving DecidableEq

/-- One step of `counts[key] = counts.get(key, 0) + 1` on an
insertion-ordered dict. -/
def bumpCount (counts : List (String × Nat)) (k : String) :
    List (String × Nat) :=
  if counts.any (fun p => p.1 == k) then
    counts.map (fun p => if p.1 == k then (p.1, p.2 + 1) else p)
  else counts ++ [(k, 1)]

/-- `AIContentGenerator._count_by_platform`. -/
def count_by_platform (st : EngineState) : List (String × Nat) :=
  st.generation_history.foldl (fun acc c => bumpCount acc c.platform) []

/-- `AIContentGenerator._count_by_type`. -/
def count_by_type (st : EngineState) : List (String × Nat) :=
  st.generation_history.foldl
    (fun acc c => bumpCount acc c.content_type) []

/-- `AIContentGenerator.get_statistics`: the guarded mean
`sum(scores)/len(scores) if scores else 0`. -/
def get_statistics (st : EngineState) : Stats where
  total_generated := st.generation_history.length
  avg_quality :=
    if st.quality_scores ≠ [] then
      st.quality_scores.sum / (st.quality_scores.length : ℚ)
    else 0
  by_platform := count_by_platform st
  by_type := count_by_type st

/-! ## Specification-side definitions

Definitions transcribed from the spec's wording, used to state the
claims: the spec's additive quality formula, the §3 template invariant,
substring containment, run harness for call sequences, and result
projections. -/

/-- Spec §4.4 scoring formula, written as the spec words it: base 0.5,
plus 0.2 for the inclusive length range, plus 0.1 for a line break,
plus 0.1 for a `#` character, clamped to at most 1.0. -/
def score_spec (body : String) (template : ContentTemplate) : ℚ :=
  min 1.0 (0.5
    + (if template.min_length ≤ pyLen body ∧
          pyLen body ≤ template.max_length then 0.2 else 0)
    + (if body.data.contains '\n' then 0.1 else 0)
    + (if body.data.contains '#' then 0.1 else 0))

/-- Number of (possibly overlapping) occurrences of `pat` in `s`. -/
def countOccurrences (pat s : List Char) : Nat :=
  (s.tails.filter (fun t => pat.isPrefixOf t)).length

/-- Spec §3 invariant on `ContentTemplate`: `min_length ≤ max_length`,
at least one variable name, and the prompt references every declared
variable exactly once. -/
def TemplateInv (t : ContentTemplate) : Prop :=
  t.min_length ≤ t.max_length ∧ t.variables ≠ [] ∧
    ∀ v ∈ t.variables,
      countOccurrences ("\x7b" ++ v ++ "\x7d").data t.prompt.data = 1

instance (t : ContentTemplate) : Decidable (TemplateInv t) := by
  unfold TemplateInv; infer_instance

/-- `sub` occurs verbatim (as a contiguous substring) in `s`. -/
def containsStr (s sub : String) : Prop := sub.data <:+: s.data

/-- The argument tuple of one `generate_content` call, including the
environmental inputs (random draw, id, timestamp). -/
structure GenCall where
  platform : Platform
  content_type : ContentType
  topic : String
  tone : String
  language : String
  r : Nat
  idStr : String
  createdAt : String

/-- Engine state after one call (result discarded). -/
def stepCall (st : EngineState) (c : GenCall) : EngineState :=
  (generate_content st c.platform c.content_type c.topic c.tone
    c.language c.r c.idStr c.createdAt).2

/-- Engine state after a sequence of calls on a fresh engine. -/
def runCalls (calls : List GenCall) : EngineState :=
  calls.foldl stepCall initState

/-- Body of a successful generation result. -/
def resultBody (res : Except String GeneratedContent) : Option String :=
  res.toOption.map (·.body)

/-- Quality score of a successful generation result. -/
def resultQuality (res : Except String GeneratedContent) : Option ℚ :=
  res.toOption.map (·.quality_score)

/-- A wide-range specimen template (any short body is in range),
satisfying the §3 invariant. -/
def specimenTemplateWide : ContentTemplate :=
  ⟨"specimen", "blog", "article", "{topic}", ["topic"], 0, 1000,
   "neutral", []⟩

/-- A narrow-range specimen template (a short body is out of range),
satisfying the §3 invariant. -/
def specimenTemplateNarrow : ContentTemplate :=
  ⟨"specimen", "blog", "article", "{topic}", ["topic"], 10, 20,
   "neutral", []⟩

/-- A concrete 501-character body, exceeding the 500-character variant
threshold. -/
def specimenLongBody : String := String.mk (List.replicate 501 'a')

/-! ## Helper lemmas -/

/-- `pyMin` agrees with the lattice `min` on ℚ. -/
theorem pyMin_eq_min (a b : ℚ) : pyMin a b = min a b :=
  (min_def a b).symm

/-- The middle part of a three-part concatenation is a substring. -/
theorem str_infix_parts (a b c : String) : containsStr (a ++ b ++ c) b :=
  ⟨a.data, c.data, by simp⟩

/-- `pyIn` with a single-character needle is exactly `List.contains`. -/
theorem pyIn_single (c : Char) (s : String) :
    pyIn ⟨[c]⟩ s = s.data.contains c := by
  unfold pyIn
  obtain ⟨l⟩ := s
  induction l with
  | nil => rfl
  | cons a t ih =>
      simp only [List.tails, List.any_cons, List.contains_cons] at *
      rw [ih]
      by_cases hac : c = a
      · subst hac; simp [List.isPrefixOf]
      · simp [List.isPrefixOf, Ne.symm hac, hac, BEq.symm_false]

/-- A body containing `##` also contains `#`, so the source's
`"#" in content or "##" in content` test collapses to its first
disjunct. -/
theorem pyIn_hash_or (s : String) :
    (pyIn "#" s || pyIn "##" s) = pyIn "#" s := by
  cases h : pyIn "##" s
  · simp
  · simp only [Bool.or_true]
    symm
    unfold pyIn at h ⊢
    rw [List.any_eq_true] at h ⊢
    obtain ⟨t, ht, hpre⟩ := h
    refine ⟨t, ht, ?_⟩
    rw [List.isPrefixOf_iff_prefix] at hpre ⊢
    exact List.IsPrefix.trans ⟨['#'], rfl⟩ hpre

/-- The source's full `#`-test in terms of character containment. -/
theorem pyIn_hash_cond (s : String) :
    (pyIn "#" s || pyIn "##" s) = s.data.contains '#' := by
  rw [pyIn_hash_or]
  exact pyIn_single '#' s

/-- Every blog-article body contains its topic. -/
theorem contains_topic_blogArticleBody (topic : String) :
    containsStr (blogArticleBody topic) topic :=
  str_infix_parts "# " topic (blogArticleBodyTail topic)

/-- Every tweet body contains its topic. -/
theorem contains_topic_twitterPostBody (topic : String) :
    containsStr (twitterPostBody topic) topic :=
  str_infix_parts "🧵 关于" topic (twitterPostBodyTail topic)

/-- Every weibo body contains its topic. -/
theorem contains_topic_weiboPostBody (topic : String) :
    containsStr (weiboPostBody topic) topic :=
  str_infix_parts "救命！姐妹们！" topic (weiboPostBodyTail topic)

/-- Every linkedin body contains its topic. -/
theorem contains_topic_linkedinPostBody (topic : String) :
    containsStr (linkedinPostBody topic) topic :=
  str_infix_parts "💼 关于" topic (linkedinPostBodyTail topic)

/-- Every fallback body contains its topic. -/
theorem contains_topic_defaultBody (topic : String) :
    containsStr (defaultBody topic) topic :=
  str_infix_parts "关于" topic (defaultBodyTail topic)

/-! ## Claim C1 — registry miss raises and leaves state untouched -/

/-- C1.  For every (platform, contentType) pair with no registered
template, `generate_content` returns the `TemplateNotFound` error (the
source's `ValueError`, never a default template), and the engine state
— generation history and quality-score list — is returned exactly as it
was. -/
theorem template_miss_errors_state_unchanged (p : Platform)
    (ct : ContentType) (h : TEMPLATES p ct = none)
    (topic tone lang : String) (r : Nat) (idStr createdAt : String)
    (st : EngineState) :
    generate_content st p ct topic tone lang r idStr createdAt =
      (.error ("模板不存在: " ++ p.value ++ "/" ++ ct.value), st) := by
  simp [generate_content, h]

/-- Witness for C1: the unregistered pair (instagram, article) errors
on a fresh engine and returns the fresh state unchanged, with the exact
message of the source's `ValueError`. -/
theorem template_miss_errors_state_unchanged_witness :
    generate_content initState .instagram .article "AI技术" "neutral"
        "zh" 0 "id0" "2024-01-01" =
      (.error "模板不存在: instagram/article", initState) := by
  have h := template_miss_errors_state_unchanged .instagram .article
    rfl "AI技术" "neutral" "zh" 0 "id0" "2024-01-01" initState
  simpa using h

/-! ## Claim C2 — the quality-score formula and its value lattice -/

/-- C2.  `_calculate_quality` computes exactly the spec's additive
formula — 0.5, plus 0.2 iff `min_length ≤ len(body) ≤ max_length` in
characters, plus 0.1 iff the body contains a line break, plus 0.1 iff
it contains a `#` character, clamped to at most 1.0 — and its value
always lies in {0.5, 0.6, 0.7, 0.8, 0.9, 1.0}. -/
theorem quality_formula_and_lattice (body : String)
    (t : ContentTemplate) :
    calculate_quality body t = score_spec body t ∧
    calculate_quality body t ∈
      ({0.5, 0.6, 0.7, 0.8, 0.9, 1.0} : Set ℚ) := by
  have hn : pyIn "\n" body = body.data.contains '\n' := pyIn_single '\n' body
  have hh : pyIn "#" body = body.data.contains '#' := pyIn_single '#' body
  constructor
  · simp only [calculate_quality, score_spec, pyIn_hash_cond, hn,
      pyMin_eq_min]
    split_ifs <;> norm_num
  · simp only [calculate_quality, Set.mem_insert_iff,
      Set.mem_singleton_iff]
    split_ifs <;> norm_num [pyMin]

/-! ## Claim C3 — the attained range of the scorer

The three bonuses sum to at most 0.2 + 0.1 + 0.1 = 0.4, so the score
never exceeds 0.9: the clamp at 1.0 is dead code and 1.0 is not in the
scorer's range.  The claim that all six values {0.5 … 1.0} are attained
is therefore false; the attained range is exactly {0.5, 0.6, 0.7, 0.8,
0.9}. -/

/-- C3 counterexample: no body and no template — in particular none
satisfying the §3 template invariant — ever scores 1.0, refuting the
claim that every element of {0.5, 0.6, 0.7, 0.8, 0.9, 1.0} is
attained. -/
theorem quality_one_never_attained :
    ¬ ∃ (body : String) (t : ContentTemplate),
        TemplateInv t ∧ calculate_quality body t = 1 := by
  rintro ⟨body, t, -, h⟩
  simp only [calculate_quality] at h
  split_ifs at h <;> norm_num [pyMin] at h

/-- C3 amended.  The effective range of the scorer is exactly the
discrete set {0.5, 0.6, 0.7, 0.8, 0.9}: every score lies in that set,
and each of the five values is attained by some body and some template
satisfying the §3 template invariant. -/
theorem quality_range_exactly_five (body : String) (t : ContentTemplate) :
    calculate_quality body t ∈ ({0.5, 0.6, 0.7, 0.8, 0.9} : Set ℚ) ∧
    (∃ b u, TemplateInv u ∧ calculate_quality b u = 0.5) ∧
    (∃ b u, TemplateInv u ∧ calculate_quality b u = 0.6) ∧
    (∃ b u, TemplateInv u ∧ calculate_quality b u = 0.7) ∧
    (∃ b u, TemplateInv u ∧ calculate_quality b u = 0.8) ∧
    (∃ b u, TemplateInv u ∧ calculate_quality b u = 0.9) := by
  refine ⟨?_,
    ⟨"ab", specimenTemplateNarrow, by decide, ?_⟩,
    ⟨"a\nb", specimenTemplateNarrow, by decide, ?_⟩,
    ⟨"ab", specimenTemplateWide, by decide, ?_⟩,
    ⟨"a\nb", specimenTemplateWide, by decide, ?_⟩,
    ⟨"#a\nb", specimenTemplateWide, by decide, ?_⟩⟩
  · simp only [calculate_quality, Set.mem_insert_iff,
      Set.mem_singleton_iff]
    split_ifs <;> norm_num [pyMin]
  all_goals
    simp only [calculate_quality,
      (by decide : pyIn "\n" "ab" = false),
      (by decide : pyIn "\n" "a\nb" = true),
      (by decide : pyIn "\n" "#a\nb" = true),
      (by decide : (pyIn "#" "ab" || pyIn "##" "ab") = false),
      (by decide : (pyIn "#" "a\nb" || pyIn "##" "a\nb") = false),
      (by decide : (pyIn "#" "#a\nb" || pyIn "##" "#a\nb") = true),
      (by decide : ¬(specimenTemplateNarrow.min_length ≤ pyLen "ab" ∧
        pyLen "ab" ≤ specimenTemplateNarrow.max_length)),
      (by decide : ¬(specimenTemplateNarrow.min_length ≤ pyLen "a\nb" ∧
        pyLen "a\nb" ≤ specimenTemplateNarrow.max_length)),
      (by decide : specimenTemplateWide.min_length ≤ pyLen "ab" ∧
        pyLen "ab" ≤ specimenTemplateWide.max_length),
      (by decide : specimenTemplateWide.min_length ≤ pyLen "a\nb" ∧
        pyLen "a\nb" ≤ specimenTemplateWide.max_length),
      (by decide : specimenTemplateWide.min_length ≤ pyLen "#a\nb" ∧
        pyLen "#a\nb" ≤ specimenTemplateWide.max_length)]
    norm_num [pyMin]

/-! ## Claim C4 — variant count, order and truncation -/

/-- C4.  `_generate_variants` returns exactly 3 elements when the body
exceeds 500 characters and exactly 2 otherwise; the element list is the
optional truncated variant followed by the question variant and the
call-to-action variant in that order; and when present, the truncated
variant consists of exactly the first 300 characters of the body
followed by the ellipsis marker. -/
theorem variants_count_order_truncation (body : String) (p : Platform) :
    (generate_variants body p).length =
      (if 500 < pyLen body then 3 else 2) ∧
    generate_variants body p =
      (if 500 < pyLen body then [pyTake body 300 ++ "..."] else [])
        ++ [body ++ "\n\n你对这个问题怎么看？",
            body ++ "\n\n觉得有用的话，记得点赞收藏！"] ∧
    (500 < pyLen body → pyLen (pyTake body 300) = 300) := by
  refine ⟨?_, rfl, ?_⟩
  · by_cases h : 500 < pyLen body <;> simp [generate_variants, h]
  · intro h
    simp only [pyLen, pyTake, List.length_take] at h ⊢
    omega

/-- Witness for C4 at a concrete 501-character body: three variants,
and the truncated head is exactly 300 characters long. -/
theorem variants_count_order_truncation_witness :
    (generate_variants specimenLongBody .blog).length = 3 ∧
    pyLen (pyTake specimenLongBody 300) = 300 := by
  have hlen : 500 < pyLen specimenLongBody := by
    simp only [specimenLongBody, pyLen, List.length_replicate]
    omega
  refine ⟨?_, (variants_count_order_truncation specimenLongBody .blog).2.2
    hlen⟩
  have h := (variants_count_order_truncation specimenLongBody .blog).1
  rwa [if_pos hlen] at h

/-! ## Claim C7 — hashtag cap and leading hashtag -/

/-- C7.  `_generate_hashtags` returns at most 5 elements, and its
first element is always the topic with its space characters removed,
wrapped in the `#…#` delimiter the source applies for every
platform. -/
theorem hashtags_capped_head_is_topic (topic : String) (p : Platform) :
    (generate_hashtags topic p).length ≤ 5 ∧
    (generate_hashtags topic p).head? =
      some ("#" ++ pyReplace topic " " "" ++ "#") := by
  cases p <;> exact ⟨by simp [generate_hashtags], rfl⟩

/-! ## Claim C5 — randomness and title selection

The spec (§4.3, §5, §9) requires the engine to accept an optional
deterministic random source for title selection.  The source offers no
such injection point: `__init__` and `generate_content` take no random
parameter, and `_generate_title` draws from the process-wide
`random.choice` global — the shared implicit randomness the spec
forbids.  That conjunct of the claim is therefore false of the code.
The index `r` below embeds the global draw, and the theorem proves the
half of the claim that does hold: the draw influences nothing but the
title. -/

/-- C5 (the half that holds of the code).  The title draw `r` — the
embedding of the value produced by the process-wide `random.choice`,
which the source uses in place of the injectable source the spec
requires — influences only the title: for any two draws `r₁ r₂` (and
any id/timestamp inputs), two calls with identical (platform,
contentType, topic, tone, language) yield identical bodies and
identical quality scores; and there are concrete inputs on which two
draws yield two different titles with equal body and equal score. -/
theorem randomness_only_affects_title :
    (∀ (st : EngineState) (p : Platform) (ct : ContentType)
        (topic tone lang : String) (r₁ r₂ : Nat)
        (id₁ id₂ t₁ t₂ : String),
      resultBody (generate_content st p ct topic tone lang r₁ id₁ t₁).1 =
        resultBody (generate_content st p ct topic tone lang r₂ id₂ t₂).1 ∧
      resultQuality (generate_content st p ct topic tone lang r₁ id₁ t₁).1 =
        resultQuality (generate_content st p ct topic tone lang r₂ id₂ t₂).1) ∧
    (∃ g₁ g₂ : GeneratedContent,
      (generate_content initState .blog .article "AI" "neutral" "zh"
        0 "id" "t").1 = .ok g₁ ∧
      (generate_content initState .blog .article "AI" "neutral" "zh"
        1 "id" "t").1 = .ok g₂ ∧
      g₁.title ≠ g₂.title ∧ g₁.body = g₂.body ∧
      g₁.quality_score = g₂.quality_score) := by
  constructor
  · intro st p ct topic tone lang r₁ r₂ id₁ id₂ t₁ t₂
    cases htl : TEMPLATES p ct <;>
      simp [generate_content, htl, resultBody, resultQuality,
        Except.toOption]
  · refine ⟨_, _, rfl, rfl, ?_, rfl, rfl⟩
    decide

/-! ## Claim C10 — body and score ignore tone and language -/

/-- C10.  Two `generate_content` calls differing only in `tone` and/or
`language` produce the same body and the same quality score (and the
same error on a registry miss): synthesis dispatches on the template
name and interpolates only the topic, never the language-prefixed
prompt. -/
theorem body_score_ignore_tone_language (st : EngineState)
    (p : Platform) (ct : ContentType) (topic : String)
    (tone₁ tone₂ lang₁ lang₂ : String) (r : Nat)
    (idStr createdAt : String) :
    resultBody
        (generate_content st p ct topic tone₁ lang₁ r idStr createdAt).1 =
      resultBody
        (generate_content st p ct topic tone₂ lang₂ r idStr createdAt).1 ∧
    resultQuality
        (generate_content st p ct topic tone₁ lang₁ r idStr createdAt).1 =
      resultQuality
        (generate_content st p ct topic tone₂ lang₂ r idStr createdAt).1 := by
  cases htl : TEMPLATES p ct <;>
    simp [generate_content, htl, resultBody, resultQuality,
      Except.toOption, simulate_generation]

/-! ## Claim C8 — statistics of a fresh engine -/

/-- C8.  On a freshly constructed engine, `get_statistics` returns
total 0, average quality 0 (the guarded mean of the empty score list,
not an error — `get_statistics` is a total function), and empty
per-platform and per-content-type breakdowns. -/
theorem statistics_fresh_engine :
    get_statistics initState =
      { total_generated := 0, avg_quality := 0,
        by_platform := [], by_type := [] } := rfl

/-! ## Claim C6 — every generated body contains the topic verbatim

The source with the line-479 brace slip repaired (see
`defaultBodyTail`): every synthesis branch interpolates the topic, so
every successful generation has the topic as a verbatim substring of
the body. -/

/-- C6.  For every registered (platform, contentType) pair and every
topic, `generate_content` succeeds and the returned body contains the
topic string verbatim at least once. -/
theorem generated_body_contains_topic (p : Platform) (ct : ContentType)
    (tmpl : ContentTemplate) (h : TEMPLATES p ct = some tmpl)
    (topic tone lang : String) (r : Nat) (idStr createdAt : String)
    (st : EngineState) :
    ∃ g : GeneratedContent,
      (generate_content st p ct topic tone lang r idStr createdAt).1 =
        .ok g ∧
      containsStr g.body topic := by
  cases p <;> cases ct <;>
    first
    | exact Option.noConfusion h
    | (injection h with h2
       subst h2
       refine ⟨_, rfl, ?_⟩
       first
       | exact contains_topic_blogArticleBody topic
       | exact contains_topic_twitterPostBody topic
       | exact contains_topic_weiboPostBody topic
       | exact contains_topic_linkedinPostBody topic
       | exact contains_topic_defaultBody topic)

/-- Witness for C6 at the registered pair (blog, article) and topic
"AI": the call succeeds and its body contains "AI". -/
theorem generated_body_contains_topic_witness :
    ∃ g : GeneratedContent,
      (generate_content initState .blog .article "AI" "neutral" "zh" 0
        "id" "t").1 = .ok g ∧
      containsStr g.body "AI" :=
  generated_body_contains_topic .blog .article blogArticleTemplate rfl
    "AI" "neutral" "zh" 0 "id" "t" initState

/-! ## Claim C9 — history and score list stay parallel -/

/-- Case analysis of one engine step: a failing call leaves the state
untouched; a successful call appends one content record and exactly its
own quality score. -/
theorem stepCall_cases (st : EngineState) (c : GenCall) :
    stepCall st c = st ∨
    ∃ g : GeneratedContent,
      stepCall st c =
        ⟨st.generation_history ++ [g],
         st.quality_scores ++ [g.quality_score]⟩ := by
  unfold stepCall generate_content
  cases TEMPLATES c.platform c.content_type
  · exact Or.inl rfl
  · exact Or.inr ⟨_, rfl⟩

/-- The score list is always the image of the history under
`quality_score`; preserved by every call sequence. -/
theorem runCalls_scores_eq_map (calls : List GenCall) :
    ∀ st : EngineState,
      st.quality_scores =
        st.generation_history.map (·.quality_score) →
      (calls.foldl stepCall st).quality_scores =
        (calls.foldl stepCall st).generation_history.map
          (·.quality_score) := by
  induction calls with
  | nil => exact fun st h => h
  | cons c cs ih =>
      intro st h
      simp only [List.foldl_cons]
      apply ih
      rcases stepCall_cases st c with h1 | ⟨g, h1⟩
      · rw [h1]; exact h
      · rw [h1]; simp [h]

/-- C9.  After any sequence of `generate_content` calls on a fresh
engine — successful or failing — the generation history and the
quality-score list have equal length and the i-th score is exactly the
`quality_score` field of the i-th history entry; and every single call
extends both sequences append-only (the old lists are prefixes of the
new ones, so existing entries are never mutated or removed). -/
theorem history_and_scores_stay_parallel :
    (∀ calls : List GenCall,
      (runCalls calls).generation_history.length =
        (runCalls calls).quality_scores.length ∧
      ∀ i : Nat,
        (runCalls calls).quality_scores[i]? =
          ((runCalls calls).generation_history[i]?).map
            (·.quality_score)) ∧
    (∀ (st : EngineState) (c : GenCall),
      st.generation_history <+: (stepCall st c).generation_history ∧
      st.quality_scores <+: (stepCall st c).quality_scores) := by
  constructor
  · intro calls
    have hinv : (runCalls calls).quality_scores =
        (runCalls calls).generation_history.map (·.quality_score) :=
      runCalls_scores_eq_map calls initState rfl
    exact ⟨by rw [hinv, List.length_map],
      fun i => by rw [hinv, List.getElem?_map]⟩
  · intro st c
    rcases stepCall_cases st c with h | ⟨g, h⟩
    · rw [h]; exact ⟨List.prefix_refl _, List.prefix_refl _⟩
    · rw [h]; exact ⟨⟨[g], rfl⟩, ⟨[g.quality_score], rfl⟩⟩

end ContentGen
